import Mathlib

/-!
Shallow embedding of the clientgo_demo repository: two pod listers
(src/dynamicClient/main.go and the first program of
src/restclientdemo-1/main.go), and the resource provisioner (the two
provisioner copies inside src/restclientdemo-1/main.go).  External cluster
calls are modelled as explicit call traces against a simulated backend; a
Go `panic` is modelled by stopping the run and setting a `panicked` flag.
-/

namespace ClientGo

/-- A printed output row: (namespace, phase, name), the tuple both listers
print per pod (`d.Namespace, d.Status.Phase, d.Name`). -/
abbrev Row := String × String × String

/-- The `Status` sub-struct of a pod; only `Phase` is consumed. -/
structure PodStatus where
  phase : String
deriving DecidableEq

/-- A pod snapshot as consumed by the listers: metadata namespace and name,
plus the status. -/
structure Pod where
  ns : String
  name : String
  status : PodStatus
deriving DecidableEq

/-- The row a lister prints for pod `p`: `(p.Namespace, p.Status.Phase, p.Name)`. -/
def podRow (p : Pod) : Row := (p.ns, p.status.phase, p.name)

/-- The `schema.GroupVersionResource` triple from dynamicClient/main.go line 49. -/
structure GVR where
  group : String
  version : String
  resource : String
deriving DecidableEq

/-- An API call issued by the dynamic lister: a namespaced list with an
item limit (`Resource(gvr).Namespace(ns).List(ctx, ListOptions{Limit})`). -/
inductive DynCall where
  | list (gvr : GVR) (ns : String) (limit : Nat)
deriving DecidableEq

/-- Observable outcome of the dynamic lister: calls issued, whether the
header line was printed, the rows printed, and whether it panicked. -/
structure DynResult where
  calls : List DynCall
  headerPrinted : Bool
  rows : List Row
  panicked : Bool
deriving DecidableEq

/-- The value `gvr` of dynamicClient/main.go line 49
(dynamicClient/main.go line 49); the Group field keeps its zero value. -/
def podsGVR : GVR := { group := "", version := "v1", resource := "pods" }

/-- src/dynamicClient/main.go lines 49-92: build the hardcoded GVR
(group "", version "v1", resource "pods"), issue one list call on
namespace "kube-system" with Limit 100, convert, print header then one row
per item.  A backend error covers both a failed List call and a failed
`FromUnstructured` conversion: each panics before the header is printed. -/
def runDynamicLister (backend : GVR → String → Nat → Except String (List Pod)) :
    DynResult :=
  match backend podsGVR ("kube-system") 100 with
  | Except.error _ =>
      { calls := [DynCall.list podsGVR ("kube-system") 100], headerPrinted := false,
        rows := [], panicked := true }
  | Except.ok pods =>
      { calls := [DynCall.list podsGVR ("kube-system") 100], headerPrinted := true,
        rows := pods.map podRow, panicked := false }

/-- Observable outcome of the typed REST lister: rows printed, the
namespaces for which a pod-list call was issued (in order), and whether the
run ended in a panic. -/
structure RestResult where
  rows : List Row
  podCalls : List String
  panicked : Bool
deriving DecidableEq

/-- The per-namespace loop of restclientdemo-1/main.go lines 55-66: for
each namespace issue one pod list with Limit 500; on error panic at once
(no later namespace is queried), otherwise print one row per item and
continue. -/
def listLoop (podBackend : String → Nat → Except String (List Pod)) :
    List String → List Row × List String × Bool
  | [] => ([], [], false)
  | ns :: rest =>
    match podBackend ns 500 with
    | Except.error _ => ([], [ns], true)
    | Except.ok pods =>
      let r := listLoop podBackend rest
      (pods.map podRow ++ r.1, ns :: r.2.1, r.2.2)

/-- src/restclientdemo-1/main.go lines 37-66: build the REST client, build
the clientset, list all namespaces (no limit), then run the per-namespace
pod-list loop.  Each build step and the namespace list can fail; any
failure panics with nothing printed. -/
def runRestLister (restClientOk : Bool) (clientSetOk : Bool)
    (nsResult : Except String (List String))
    (podBackend : String → Nat → Except String (List Pod)) : RestResult :=
  if restClientOk then
    if clientSetOk then
      match nsResult with
      | Except.error _ => { rows := [], podCalls := [], panicked := true }
      | Except.ok nss =>
        let r := listLoop podBackend nss
        { rows := r.1, podCalls := r.2.1, panicked := r.2.2 }
    else { rows := [], podCalls := [], panicked := true }
  else { rows := [], podCalls := [], panicked := true }

/-- A simulated cluster state for the listers: the namespace list the
cluster reports, and the pods it holds. -/
structure Cluster where
  namespaces : List String
  pods : List Pod
deriving DecidableEq

/-- The simulated backend semantics of a namespaced pod list with an item
limit: the pods whose namespace matches, truncated to the limit. -/
def listPods (c : Cluster) (ns : String) (limit : Nat) : List Pod :=
  (c.pods.filter (fun p => p.ns == ns)).take limit

/-- Rows the dynamic lister prints against simulated cluster `c`. -/
def dynamicRows (c : Cluster) : List Row :=
  (runDynamicLister (fun _ ns limit => Except.ok (listPods c ns limit))).rows

/-- Rows the typed REST lister prints against simulated cluster `c`. -/
def restRows (c : Cluster) : List Row :=
  (runRestLister true true (Except.ok c.namespaces)
    (fun ns limit => Except.ok (listPods c ns limit))).rows

/-! ### The resource provisioner (restclientdemo-1/main.go, second and third programs) -/

/-- Constant block of the provisioner. -/
def NAMESPACE : String := "test-clientset"

/-- Fixed deployment name. -/
def DEPLOYMENT_NAME : String := "client-test-deployment"

/-- Fixed service name. -/
def SERVICE_NAME : String := "client-test-service"

/-- The fields of `apiv1.ContainerPort` populated by createDeployment. -/
structure ContainerPort where
  name : String
  protocol : String
  containerPort : Int
deriving DecidableEq

/-- The fields of `apiv1.Container` populated by createDeployment. -/
structure Container where
  name : String
  image : String
  imagePullPolicy : String
  ports : List ContainerPort
deriving DecidableEq

/-- The fields of `appsv1.Deployment` the provisioner populates: name,
optional replica count, selector match labels, pod template labels, and
the template's containers. -/
structure Deployment where
  name : String
  replicas : Option Int
  selectorMatchLabels : List (String × String)
  templateLabels : List (String × String)
  containers : List Container
deriving DecidableEq

/-- The fields of `apiv1.ServicePort` populated by createService. -/
structure ServicePort where
  name : String
  port : Int
  nodePort : Int
deriving DecidableEq

/-- The fields of `apiv1.Service` the provisioner populates. -/
structure Service where
  name : String
  ports : List ServicePort
  selector : List (String × String)
  type : String
deriving DecidableEq

/-- The fields of `metav1.DeleteOptions` the spec talks
about; the zero value leaves both unset. -/
structure DeleteOptions where
  gracePeriodSeconds : Option Int
  propagationPolicy : Option String
deriving DecidableEq

/-- The zero-valued `emptyDeleteOptions` of line 449: no
grace-period override, no cascade-policy override. -/
def emptyDeleteOptions : DeleteOptions :=
  { gracePeriodSeconds := none, propagationPolicy := none }

/-- The service object built by createService (lines 485-501): fixed name,
one port (http, 8080, node port 30080), selector app=tomcat, NodePort type. -/
def theService : Service :=
  { name := SERVICE_NAME,
    ports := [{ name := "http", port := 8080, nodePort := 30080 }],
    selector := [("app", "tomcat")],
    type := "NodePort" }

/-- The deployment object built by the third program's createDeployment
(lines 516-550): no Replicas field is set, selector and template labels
app=tomcat, single tomcat:8.0.18-jre8 container with an SCTP port 8080. -/
def theDeployment : Deployment :=
  { name := DEPLOYMENT_NAME,
    replicas := none,
    selectorMatchLabels := [("app", "tomcat")],
    templateLabels := [("app", "tomcat")],
    containers :=
      [{ name := "tomcat", image := "tomcat:8.0.18-jre8",
         imagePullPolicy := "IfNotPresent",
         ports := [{ name := "http", protocol := "SCTP", containerPort := 8080 }] }] }

/-- The deployment object built by the second (commented) program's
createDeployment (lines 342-377): identical except
`Replicas: pointer.Int32Ptr(2)`. -/
def theDeploymentDocumented : Deployment :=
  { theDeployment with replicas := some 2 }

/-- One API call of the provisioner, with its full payload. -/
inductive ApiCall where
  | createNamespace (name : String)
  | createDeployment (ns : String) (d : Deployment)
  | createService (ns : String) (s : Service)
  | deleteService (ns : String) (name : String) (opts : DeleteOptions)
  | deleteDeployment (ns : String) (name : String) (opts : DeleteOptions)
  | deleteNamespace (name : String) (opts : DeleteOptions)
deriving DecidableEq

/-- Is this call a delete? -/
def ApiCall.isDelete : ApiCall → Bool
  | ApiCall.deleteService _ _ _ => true
  | ApiCall.deleteDeployment _ _ _ => true
  | ApiCall.deleteNamespace _ _ => true
  | _ => false

/-- The namespace create call issued by createNamespace (line 473). -/
def nsCreateCall : ApiCall := ApiCall.createNamespace NAMESPACE

/-- The deployment create call issued by createDeployment (line 552). -/
def depCreateCall : ApiCall := ApiCall.createDeployment NAMESPACE theDeployment

/-- The service create call issued by createService (line 503). -/
def svcCreateCall : ApiCall := ApiCall.createService NAMESPACE theService

/-- The service delete call issued by clean (line 451). -/
def svcDeleteCall : ApiCall :=
  ApiCall.deleteService NAMESPACE SERVICE_NAME emptyDeleteOptions

/-- The deployment delete call issued by clean (line 455). -/
def depDeleteCall : ApiCall :=
  ApiCall.deleteDeployment NAMESPACE DEPLOYMENT_NAME emptyDeleteOptions

/-- The namespace delete call issued by clean (line 459). -/
def nsDeleteCall : ApiCall := ApiCall.deleteNamespace NAMESPACE emptyDeleteOptions

/-- Simulated cluster state touched by the provisioner: namespaces,
(namespace, deployment) pairs and (namespace, service) pairs. -/
structure ClusterState where
  namespaces : List String
  deployments : List (String × Deployment)
  services : List (String × Service)
deriving DecidableEq

/-- Outcome of a provisioner run: final simulated state, the calls issued
in order, and whether the run ended in a panic. -/
structure RunResult where
  state : ClusterState
  trace : List ApiCall
  panicked : Bool
deriving DecidableEq

/-- The create branch (lines 442-444): createNamespace, createDeployment,
createService, in that order; each helper panics on error, so a failed call
stops the run at once with no compensating action.  `ok` is the simulated
backend's accept/reject decision per call; an accepted create appends the
object to the simulated state. -/
def runCreate (ok : ApiCall → Bool) (st : ClusterState) : RunResult :=
  if ok nsCreateCall then
    let st1 : ClusterState := { st with namespaces := st.namespaces ++ [NAMESPACE] }
    if ok depCreateCall then
      let st2 : ClusterState :=
        { st1 with deployments := st1.deployments ++ [(NAMESPACE, theDeployment)] }
      if ok svcCreateCall then
        { state := { st2 with services := st2.services ++ [(NAMESPACE, theService)] },
          trace := [nsCreateCall, depCreateCall, svcCreateCall], panicked := false }
      else
        { state := st2, trace := [nsCreateCall, depCreateCall, svcCreateCall],
          panicked := true }
    else
      { state := st1, trace := [nsCreateCall, depCreateCall], panicked := true }
  else
    { state := st, trace := [nsCreateCall], panicked := true }

/-- The clean branch (lines 448-462): delete the service, the deployment,
then the namespace, each by fixed name with `emptyDeleteOptions`; each step
panics on error, stopping the run. -/
def runClean (ok : ApiCall → Bool) (st : ClusterState) : RunResult :=
  if ok svcDeleteCall then
    let svcs := st.services.filter (fun x => !(x.1 == NAMESPACE && x.2.name == SERVICE_NAME))
    let st1 : ClusterState := { st with services := svcs }
    if ok depDeleteCall then
      let deps := st1.deployments.filter (fun x => !(x.1 == NAMESPACE && x.2.name == DEPLOYMENT_NAME))
      let st2 : ClusterState := { st1 with deployments := deps }
      if ok nsDeleteCall then
        let nss := st2.namespaces.filter (fun n => n != NAMESPACE)
        { state := { st2 with namespaces := nss },
          trace := [svcDeleteCall, depDeleteCall, nsDeleteCall], panicked := false }
      else
        { state := st2, trace := [svcDeleteCall, depDeleteCall, nsDeleteCall],
          panicked := true }
    else
      { state := st1, trace := [svcDeleteCall, depDeleteCall], panicked := true }
  else
    { state := st, trace := [svcDeleteCall], panicked := true }

/-- Default value of the `-operate` flag (line 423). -/
def operateDefault : String := "create"

/-- The provisioner's dispatch (lines 437-445): the parsed `-operate` value
is consulted once; `"clean"` selects the clean branch, anything else the
create branch. -/
def provisionerMain (operate : String) (ok : ApiCall → Bool) (st : ClusterState) :
    RunResult :=
  if ("clean") = operate then runClean ok st else runCreate ok st

/-! ### Concrete inputs used by witnesses -/

/-- A backend that accepts every call. -/
def okAllTrue : ApiCall → Bool := fun _ => true

/-- A backend that accepts the namespace and deployment creates and
rejects all other calls, in particular the service create. -/
def okNsDepOnly : ApiCall → Bool := fun c =>
  match c with
  | ApiCall.createNamespace _ => true
  | ApiCall.createDeployment _ _ => true
  | _ => false

/-- The empty simulated cluster state. -/
def emptyState : ClusterState := { namespaces := [], deployments := [], services := [] }

/-! ### Theorems for the claims -/

/-- C2: the provisioner consults the parsed `-operate` value once; the
value "clean" selects the clean branch, the default value "create" and any
other string select the create branch. -/
theorem c2_operate_flag_dispatch (ok : ApiCall → Bool) (st : ClusterState) :
    provisionerMain ("clean") ok st = runClean ok st ∧
    provisionerMain operateDefault ok st = runCreate ok st ∧
    ∀ s : String, s ≠ "clean" → provisionerMain s ok st = runCreate ok st := by
  refine ⟨by simp [provisionerMain], by simp [provisionerMain, operateDefault], ?_⟩
  intro s hs
  unfold provisionerMain
  exact if_neg (fun h => hs h.symm)

/-- Witness for C2 at concrete inputs, including the unrecognized value
"delete" falling through to the create branch. -/
theorem c2_operate_flag_dispatch_witness :
    provisionerMain ("clean") okAllTrue emptyState = runClean okAllTrue emptyState ∧
    provisionerMain operateDefault okAllTrue emptyState = runCreate okAllTrue emptyState ∧
    provisionerMain ("delete") okAllTrue emptyState = runCreate okAllTrue emptyState := by
  have h := c2_operate_flag_dispatch okAllTrue emptyState
  exact ⟨h.1, h.2.1, h.2.2 ("delete") (by decide)⟩

/-- A cluster holding a single pod outside "kube-system". -/
def cexCluster : Cluster :=
  { namespaces := ["default"],
    pods := [{ ns := "default", name := "p1", status := { phase := "Running" } }] }

/-- A cluster whose only pod lives in "kube-system". -/
def witCluster : Cluster :=
  { namespaces := ["kube-system"],
    pods := [{ ns := "kube-system", name := "a", status := { phase := "Running" } }] }

/-- C1 counterexample: on a cluster whose single pod lives in namespace
"default", the typed REST lister prints the pod's row but the dynamic
lister — which queries only "kube-system" — prints nothing, so the two row
sets differ. -/
theorem c1_listers_differ_counterexample :
    dynamicRows cexCluster ≠ restRows cexCluster ∧
    ("default", "Running", "p1") ∈ restRows cexCluster ∧
    ("default", "Running", "p1") ∉ dynamicRows cexCluster := by
  decide

/-- C1 amended: when every pod lives in namespace "kube-system", the
cluster's namespace list is exactly ["kube-system"], and there are at most
100 pods (the dynamic lister's item limit), the two listing strategies
print identical (namespace, phase, name) rows. -/
theorem c1_listers_agree_on_kube_system (c : Cluster)
    (hns : c.namespaces = ["kube-system"])
    (hpods : ∀ p ∈ c.pods, p.ns = "kube-system")
    (hlen : c.pods.length ≤ 100) :
    dynamicRows c = restRows c := by
  have hf : c.pods.filter (fun p => p.ns == "kube-system") = c.pods :=
    List.filter_eq_self.mpr (fun p hp => by simp [hpods p hp])
  have h100 : c.pods.take 100 = c.pods := List.take_of_length_le hlen
  have h500 : c.pods.take 500 = c.pods :=
    List.take_of_length_le (le_trans hlen (by norm_num))
  simp [dynamicRows, restRows, runDynamicLister, runRestLister, hns, listLoop,
    listPods, hf, h100, h500]

/-- Witness for the amended C1 at a concrete one-pod cluster. -/
theorem c1_listers_agree_witness : dynamicRows witCluster = restRows witCluster :=
  c1_listers_agree_on_kube_system witCluster rfl (by decide) (by decide)

/-- The rows the typed REST lister prints for one namespace: one row per
pod of a successful response, nothing for a failed one. -/
def rowsFor (podBackend : String → Nat → Except String (List Pod)) (ns : String) :
    List Row :=
  match podBackend ns 500 with
  | Except.ok pods => pods.map podRow
  | Except.error _ => []

/-- The pod-list loop stops at the first namespace whose list call fails:
rows come only from the namespaces before it, the failing namespace is the
last one queried, and the loop reports the panic. -/
theorem listLoop_stops_at_first_error
    (podBackend : String → Nat → Except String (List Pod))
    (good : List String) (bad : String) (rest : List String)
    (hgood : ∀ ns ∈ good, (podBackend ns 500).isOk = true)
    (hbad : (podBackend bad 500).isOk = false) :
    listLoop podBackend (good ++ bad :: rest) =
      ((good.map (rowsFor podBackend)).flatten, good ++ [bad], true) := by
  induction good with
  | nil =>
    cases h : podBackend bad 500 with
    | error e => simp [listLoop, h]
    | ok pods => rw [h] at hbad; simp [Except.isOk, Except.toBool] at hbad
  | cons ns tl ih =>
    have hok : (podBackend ns 500).isOk = true := hgood ns (by simp)
    have htl : ∀ n ∈ tl, (podBackend n 500).isOk = true :=
      fun n hn => hgood n (by simp [hn])
    cases h : podBackend ns 500 with
    | error e => rw [h] at hok; simp [Except.isOk, Except.toBool] at hok
    | ok pods =>
      rw [List.cons_append]
      simp only [listLoop, h, List.append_eq]
      rw [ih htl]
      simp [rowsFor, h]

/-- C7: the typed REST lister aborts the whole run at the first error —
a failed REST client build, a failed clientset build, a failed namespace
list, or a failed pod list in any one namespace — printing nothing new and
querying no later namespace, even when rows for earlier namespaces were
already printed. -/
theorem c7_rest_lister_fatal
    (podBackend : String → Nat → Except String (List Pod))
    (good : List String) (bad : String) (rest : List String)
    (nsRes : Except String (List String))
    (hgood : ∀ ns ∈ good, (podBackend ns 500).isOk = true)
    (hbad : (podBackend bad 500).isOk = false) :
    (∀ csOk, runRestLister false csOk nsRes podBackend =
      { rows := [], podCalls := [], panicked := true }) ∧
    runRestLister true false nsRes podBackend =
      { rows := [], podCalls := [], panicked := true } ∧
    (∀ e, runRestLister true true (Except.error e) podBackend =
      { rows := [], podCalls := [], panicked := true }) ∧
    runRestLister true true (Except.ok (good ++ bad :: rest)) podBackend =
      { rows := (good.map (rowsFor podBackend)).flatten,
        podCalls := good ++ [bad], panicked := true } := by
  refine ⟨fun _ => rfl, rfl, fun _ => rfl, ?_⟩
  show ({ rows := (listLoop podBackend (good ++ bad :: rest)).1,
          podCalls := (listLoop podBackend (good ++ bad :: rest)).2.1,
          panicked := (listLoop podBackend (good ++ bad :: rest)).2.2 } : RestResult) = _
  rw [listLoop_stops_at_first_error podBackend good bad rest hgood hbad]

/-- A pod-list backend that answers only for namespace "ns-ok". -/
def witBackend : String → Nat → Except String (List Pod) := fun ns _ =>
  if ns = "ns-ok" then
    Except.ok [{ ns := "ns-ok", name := "p", status := { phase := "Running" } }]
  else Except.error ("the server could not find the requested resource")

/-- Witness for C7: with one good namespace, one failing namespace and one
namespace after it, the run keeps the good rows, stops at the failing
namespace and panics. -/
theorem c7_rest_lister_fatal_witness :
    runRestLister true true (Except.ok (["ns-ok"] ++ "ns-bad" :: ["ns-later"])) witBackend =
      { rows := ((["ns-ok"].map (rowsFor witBackend))).flatten,
        podCalls := ["ns-ok"] ++ ["ns-bad"], panicked := true } :=
  (c7_rest_lister_fatal witBackend ["ns-ok"] "ns-bad" ["ns-later"] (Except.ok [])
    (by decide) (by decide)).2.2.2

/-- C3: in create mode, whichever create step fails first, the run stops
right there (the trace ends at the rejected call), the run panics, every
object created by an earlier successful step remains in the final state,
nothing else was touched — and in every run, failing or not, no delete
call is ever issued.  The three branches cover a rejected namespace
create, a rejected deployment create, and a rejected service create. -/
theorem c3_no_rollback (ok : ApiCall → Bool) (st : ClusterState) :
    (∀ a ∈ (runCreate ok st).trace, a.isDelete = false) ∧
    (ok nsCreateCall = false →
      (runCreate ok st).trace = [nsCreateCall] ∧
      (runCreate ok st).panicked = true ∧
      (runCreate ok st).state = st) ∧
    (ok nsCreateCall = true → ok depCreateCall = false →
      (runCreate ok st).trace = [nsCreateCall, depCreateCall] ∧
      (runCreate ok st).panicked = true ∧
      (runCreate ok st).state.namespaces = st.namespaces ++ [NAMESPACE] ∧
      (runCreate ok st).state.deployments = st.deployments ∧
      (runCreate ok st).state.services = st.services) ∧
    (ok nsCreateCall = true → ok depCreateCall = true → ok svcCreateCall = false →
      (runCreate ok st).trace = [nsCreateCall, depCreateCall, svcCreateCall] ∧
      (runCreate ok st).panicked = true ∧
      (runCreate ok st).state.namespaces = st.namespaces ++ [NAMESPACE] ∧
      (runCreate ok st).state.deployments = st.deployments ++ [(NAMESPACE, theDeployment)] ∧
      (runCreate ok st).state.services = st.services) := by
  unfold runCreate
  cases h1 : ok nsCreateCall <;> cases h2 : ok depCreateCall <;>
    cases h3 : ok svcCreateCall <;> simp_all <;> decide

/-- Witness for C3 at the service-rejecting backend on the empty state:
the namespace and the deployment created beforehand both remain, the trace
ends at the rejected service create, and no delete was issued. -/
theorem c3_no_rollback_witness :
    (∀ a ∈ (runCreate okNsDepOnly emptyState).trace, a.isDelete = false) ∧
    (runCreate okNsDepOnly emptyState).trace = [nsCreateCall, depCreateCall, svcCreateCall] ∧
    (runCreate okNsDepOnly emptyState).panicked = true ∧
    (runCreate okNsDepOnly emptyState).state.namespaces = emptyState.namespaces ++ [NAMESPACE] ∧
    (runCreate okNsDepOnly emptyState).state.deployments =
      emptyState.deployments ++ [(NAMESPACE, theDeployment)] ∧
    (runCreate okNsDepOnly emptyState).state.services = emptyState.services := by
  have h := c3_no_rollback okNsDepOnly emptyState
  exact ⟨h.1, h.2.2.2 (by decide) (by decide) (by decide)⟩

/-- C4: in create mode the call trace is always an in-order prefix of
namespace create, then deployment create, then service create — so no
later create is ever issued before an earlier one completed — and when the
backend accepts all three, exactly these three creates are issued in that
order. -/
theorem c4_create_order (ok : ApiCall → Bool) (st : ClusterState) :
    ((runCreate ok st).trace = [nsCreateCall] ∨
     (runCreate ok st).trace = [nsCreateCall, depCreateCall] ∨
     (runCreate ok st).trace = [nsCreateCall, depCreateCall, svcCreateCall]) ∧
    (ok nsCreateCall = true → ok depCreateCall = true → ok svcCreateCall = true →
      (runCreate ok st).trace = [nsCreateCall, depCreateCall, svcCreateCall]) := by
  unfold runCreate
  cases h1 : ok nsCreateCall <;> cases h2 : ok depCreateCall <;>
    cases h3 : ok svcCreateCall <;> simp [h1, h2, h3]

/-- Witness for C4: with an all-accepting backend the trace is exactly the
three creates in order. -/
theorem c4_create_order_witness :
    (runCreate okAllTrue emptyState).trace = [nsCreateCall, depCreateCall, svcCreateCall] :=
  (c4_create_order okAllTrue emptyState).2 rfl rfl rfl

/-- C5: in clean mode the call trace is always an in-order prefix of
service delete, deployment delete, namespace delete, each addressed by its
fixed name with the empty delete options; when the backend accepts all
three, exactly these three deletes are issued in that order; and the empty
delete options carry no grace-period override and no cascade-policy
override. -/
theorem c5_clean_order (ok : ApiCall → Bool) (st : ClusterState) :
    ((runClean ok st).trace = [svcDeleteCall] ∨
     (runClean ok st).trace = [svcDeleteCall, depDeleteCall] ∨
     (runClean ok st).trace = [svcDeleteCall, depDeleteCall, nsDeleteCall]) ∧
    (ok svcDeleteCall = true → ok depDeleteCall = true → ok nsDeleteCall = true →
      (runClean ok st).trace = [svcDeleteCall, depDeleteCall, nsDeleteCall]) ∧
    svcDeleteCall = ApiCall.deleteService NAMESPACE SERVICE_NAME emptyDeleteOptions ∧
    depDeleteCall = ApiCall.deleteDeployment NAMESPACE DEPLOYMENT_NAME emptyDeleteOptions ∧
    nsDeleteCall = ApiCall.deleteNamespace NAMESPACE emptyDeleteOptions ∧
    emptyDeleteOptions.gracePeriodSeconds = none ∧
    emptyDeleteOptions.propagationPolicy = none := by
  refine ⟨?_, ?_, rfl, rfl, rfl, rfl, rfl⟩ <;>
    unfold runClean <;>
    cases h1 : ok svcDeleteCall <;> cases h2 : ok depDeleteCall <;>
      cases h3 : ok nsDeleteCall <;> simp [h1, h2, h3]

/-- Witness for C5: with an all-accepting backend the trace is exactly the
three deletes in order. -/
theorem c5_clean_order_witness :
    (runClean okAllTrue emptyState).trace = [svcDeleteCall, depDeleteCall, nsDeleteCall] :=
  (c5_clean_order okAllTrue emptyState).2.1 rfl rfl rfl

/-- C6: in every submitted object, the deployment's selector match labels,
the deployment's pod template labels (in both provisioner copies) and the
service's selector are the single-entry map app = tomcat. -/
theorem c6_label_consistency :
    theDeployment.selectorMatchLabels = [("app", "tomcat")] ∧
    theDeployment.templateLabels = [("app", "tomcat")] ∧
    theDeploymentDocumented.selectorMatchLabels = [("app", "tomcat")] ∧
    theDeploymentDocumented.templateLabels = [("app", "tomcat")] ∧
    theService.selector = [("app", "tomcat")] ∧
    theDeployment.selectorMatchLabels = theService.selector ∧
    theDeployment.templateLabels = theDeployment.selectorMatchLabels := by
  decide

/-- C8: the dynamic lister issues exactly one list call, for resource
"pods" at version "v1" (empty group) on namespace "kube-system" with item
limit 100, whatever the backend answers; and on a successful answer it
prints the header and one (namespace, phase, name) row per returned item. -/
theorem c8_dynamic_single_call :
    podsGVR = { group := "", version := "v1", resource := "pods" } ∧
    (∀ backend, (runDynamicLister backend).calls =
      [DynCall.list podsGVR ("kube-system") 100]) ∧
    (∀ pods : List Pod,
      (runDynamicLister (fun _ _ _ => Except.ok pods)).headerPrinted = true ∧
      (runDynamicLister (fun _ _ _ => Except.ok pods)).panicked = false ∧
      (runDynamicLister (fun _ _ _ => Except.ok pods)).rows =
        pods.map (fun p => (p.ns, p.status.phase, p.name))) := by
  refine ⟨rfl, ?_, ?_⟩
  · intro backend
    unfold runDynamicLister
    cases backend podsGVR ("kube-system") 100 <;> rfl
  · intro pods
    exact ⟨rfl, rfl, rfl⟩

/-- C9 counterexample: the provisioner of the third program submits
`theDeployment`, whose replica count is not 2 — the Replicas field is
omitted entirely. -/
theorem c9_counterexample :
    (runCreate okAllTrue emptyState).trace =
      [nsCreateCall, ApiCall.createDeployment NAMESPACE theDeployment, svcCreateCall] ∧
    theDeployment.replicas ≠ some 2 := by
  decide

/-- C9 amended: the provisioner copy at restclientdemo-1/main.go line 416
submits a deployment with no replica count set (left to the server
default), while the commented copy at line 110 sets 2 replicas. -/
theorem c9_replicas_amended :
    theDeployment.replicas = none ∧ theDeploymentDocumented.replicas = some 2 := by
  decide

/-- C10: in both provisioner copies the deployment's pod template declares
exactly one container with exactly one port, named "http" on container
port 8080, carrying protocol SCTP and not TCP. -/
theorem c10_sctp_protocol :
    theDeployment.containers.map Container.ports =
      [[{ name := "http", protocol := "SCTP", containerPort := 8080 }]] ∧
    theDeploymentDocumented.containers.map Container.ports =
      [[{ name := "http", protocol := "SCTP", containerPort := 8080 }]] ∧
    ({ name := "http", protocol := "SCTP", containerPort := 8080 } : ContainerPort).protocol ≠ "TCP" := by
  decide

end ClientGo
